import Mathlib

/-!
Shallow embedding of `scripts/convert_model.py` from Basketball-Shot-Tracker:
a utility that loads a serialized PyTorch checkpoint, unwraps an optional
dict container, switches the model to evaluation mode, and trace-exports it
to ONNX with fixed naming and dynamic batch-axis options.

The embedding models the deserialized Python object, the filesystem, and the
observable effects (load, tensor construction, export, stdout prints) of a
single run of `convert_to_onnx` and of the command-line entry point.
-/

set_option autoImplicit false

namespace ConvertModel

/-- An opaque in-memory model object (a torch module). `training` is the
flag flipped by `model.eval()`; `exportRaises` marks a model on which
`torch.onnx.export` raises (unsupported operators etc.). -/
structure Model where
  modelId : Nat
  training : Bool
  exportRaises : Bool
deriving DecidableEq, Repr

/-- A deserialized Python object as `torch.load` can return it: a bare model,
a builtin `dict` (string keys), or a key-value mapping object that is NOT an
instance of the builtin `dict` (e.g. a custom `collections.abc.Mapping`). -/
inductive PyObj where
  | model : Model → PyObj
  | dict : List (String × PyObj) → PyObj
  | mapping : List (String × PyObj) → PyObj

/-- Python exceptions relevant to the script. -/
inductive PyError where
  | ioError : PyError
  | keyError : String → PyError
  | attributeError : PyError
  | exportError : PyError
  | outputError : PyError
deriving DecidableEq, Repr

/-- The distribution a synthetic tensor was drawn from. -/
inductive Distribution where
  | standardNormal : Distribution
deriving DecidableEq, Repr

/-- A tensor, abstracted to its shape and the distribution of its entries
(the script never inspects the dummy input's contents). -/
structure Tensor where
  shape : List Nat
  dist : Distribution
deriving DecidableEq, Repr

/-- `torch.randn(...)`: a tensor of the given shape drawn from a standard
normal distribution. -/
def torch_randn (shape : List Nat) : Tensor :=
  { shape := shape, dist := Distribution.standardNormal }

/-- The keyword options passed to `torch.onnx.export`. -/
structure ExportOptions where
  opset_version : Nat
  input_names : List String
  output_names : List String
  dynamic_axes : List (String × List (Nat × String))
deriving DecidableEq, Repr

/-- Contents of a file on disk: a loadable serialized checkpoint, an
undeserializable/corrupt file, or an exported ONNX graph (recording the
traced model, the tracing input and the export options embedded in it). -/
inductive FileData where
  | serialized : PyObj → FileData
  | corrupt : FileData
  | onnx : Model → Tensor → ExportOptions → FileData

/-- The world state: the filesystem as an association list from paths to
file contents, plus the set of output paths whose parent directory is
missing or unwritable. -/
structure World where
  fs : List (String × FileData)
  unwritable : List String

/-- First-match association-list lookup (Python dict lookup on string keys,
and filesystem lookup by path). -/
def lookupStr {α : Type} (k : String) : List (String × α) → Option α
  | [] => none
  | (k₂, v) :: rest => if k₂ = k then some v else lookupStr k rest

/-- Observable events of a run, in order: `torch.load` of a path onto a
device, construction of the dummy tensor, a completed export write to a
path, and a line printed to standard output. -/
inductive Event where
  | loadEv : String → String → Event
  | randnEv : Tensor → Event
  | exportEv : String → Model → Tensor → ExportOptions → Event
  | printEv : String → Event
deriving DecidableEq, Repr

/-- `torch.load(path, map_location='cpu')`: return the serialized object at
`path`, or raise an I/O / deserialization error. -/
def torch_load (path : String) (w : World) : Except PyError PyObj :=
  match lookupStr path w.fs with
  | some (FileData.serialized o) => Except.ok o
  | some FileData.corrupt => Except.error PyError.ioError
  | some (FileData.onnx _ _ _) => Except.error PyError.ioError
  | none => Except.error PyError.ioError

/-- `isinstance(x, dict)`: true exactly for builtin-dict objects; a custom
mapping type is not an instance of `dict`. -/
def isDict : PyObj → Bool
  | PyObj.dict _ => true
  | _ => false

/-- Python `d[k]` on a dict: the stored value, or `KeyError(k)`. -/
def dictGetItem (entries : List (String × PyObj)) (k : String) : Except PyError PyObj :=
  match lookupStr k entries with
  | some v => Except.ok v
  | none => Except.error (PyError.keyError k)

/-- Line 18: `model = model['model'] if isinstance(model, dict) else model`. -/
def unwrap (o : PyObj) : Except PyError PyObj :=
  if isDict o then
    match o with
    | PyObj.dict entries => dictGetItem entries "model"
    | _ => Except.ok o
  else Except.ok o

/-- `model.eval()`: on a model object it flips the in-memory `training` flag
and returns the model; on a dict or mapping object it raises
`AttributeError` (those objects have no `eval` method). -/
def pyEval : PyObj → Except PyError Model
  | PyObj.model m => Except.ok { m with training := false }
  | PyObj.dict _ => Except.error PyError.attributeError
  | PyObj.mapping _ => Except.error PyError.attributeError

/-- `torch.onnx.export(model, input, out_path, **opts)`: raises an output
error if the destination is unwritable, an export error if the model cannot
be traced, and otherwise (over)writes the exported graph at `out_path`. -/
def torch_onnx_export (m : Model) (input : Tensor) (out_path : String)
    (opts : ExportOptions) (w : World) : Except PyError World :=
  if out_path ∈ w.unwritable then Except.error PyError.outputError
  else if m.exportRaises then Except.error PyError.exportError
  else Except.ok { w with fs := (out_path, FileData.onnx m input opts) :: w.fs }

/-- The options literally passed at lines 31-37 of the script. -/
def exportOpts : ExportOptions :=
  { opset_version := 12
    input_names := ["images"]
    output_names := ["output"]
    dynamic_axes := [("images", [(0, "batch")]), ("output", [(0, "batch")])] }

/-- Outcome of one call to `convert_to_onnx`: the returned value or the
uncaught exception, the final world state, and the ordered event trace. -/
structure ConvertResult where
  result : Except PyError Unit
  world : World
  events : List Event

/-- The default value of the `img_size` parameter. -/
def default_img_size : Nat := 640

/-- `convert_to_onnx(pt_model_path, onnx_output_path, img_size=640)`:
load the checkpoint onto CPU, unwrap a dict container, switch to eval mode,
build the dummy input, export with `exportOpts`, and print a confirmation.
Any exception propagates immediately with the world unchanged. -/
def convert_to_onnx (pt_model_path onnx_output_path : String) (img_size : Nat)
    (w : World) : ConvertResult :=
  match torch_load pt_model_path w with
  | Except.error e =>
      { result := Except.error e, world := w
        events := [Event.loadEv pt_model_path "cpu"] }
  | Except.ok loaded =>
    match unwrap loaded with
    | Except.error e =>
        { result := Except.error e, world := w
          events := [Event.loadEv pt_model_path "cpu"] }
    | Except.ok unwrapped =>
      match pyEval unwrapped with
      | Except.error e =>
          { result := Except.error e, world := w
            events := [Event.loadEv pt_model_path "cpu"] }
      | Except.ok m =>
        let dummy_input := torch_randn [1, 3, img_size, img_size]
        match torch_onnx_export m dummy_input onnx_output_path exportOpts w with
        | Except.error e =>
            { result := Except.error e, world := w
              events := [Event.loadEv pt_model_path "cpu", Event.randnEv dummy_input] }
        | Except.ok w₂ =>
            { result := Except.ok (), world := w₂
              events := [Event.loadEv pt_model_path "cpu",
                         Event.randnEv dummy_input,
                         Event.exportEv onnx_output_path m dummy_input exportOpts,
                         Event.printEv ("Model converted successfully: " ++ onnx_output_path)] }

/-- The usage line printed at line 45. -/
def usage_message : String := "Usage: python convert_model.py <input.pt> <output.onnx>"

/-- Outcome of running the script from the command line: the process exit
status, the conversion outcome when the conversion was entered, the event
trace and the final world. -/
structure CliResult where
  exit_code : Nat
  convOutcome : Option ConvertResult
  events : List Event
  world : World

/-- Exit status of the process given the conversion outcome: 0 on normal
return, 1 when an exception reaches the interpreter. -/
def exitCodeOf : Except PyError Unit → Nat
  | Except.ok _ => 0
  | Except.error _ => 1

/-- The `__main__` block (lines 42-48): with fewer than 3 entries in
`sys.argv` print the usage message and exit with status 1; otherwise run
`convert_to_onnx(sys.argv[1], sys.argv[2])` with the default image size. -/
def cli_main (argv : List String) (w : World) : CliResult :=
  match argv with
  | _prog :: a1 :: a2 :: _rest =>
      let r := convert_to_onnx a1 a2 default_img_size w
      { exit_code := exitCodeOf r.result, convOutcome := some r
        events := r.events, world := r.world }
  | _ =>
      { exit_code := 1, convOutcome := none
        events := [Event.printEv usage_message], world := w }

/-- True for export events: used to project the file-writing steps out of a
trace. -/
def isExportEvent : Event → Bool
  | Event.exportEv _ _ _ _ => true
  | _ => false

/-- True for print events. -/
def isPrintEvent : Event → Bool
  | Event.printEv _ => true
  | _ => false

/-- True for load events. -/
def isLoadEvent : Event → Bool
  | Event.loadEv _ _ => true
  | _ => false

/-- A bare model object usable in concrete runs. -/
def sampleModel : Model :=
  { modelId := 0, training := true, exportRaises := false }

/-- A world whose filesystem holds a bare-model checkpoint at `model.pt`
and whose output directory is writable. -/
def sampleWorld : World :=
  { fs := [("model.pt", FileData.serialized (PyObj.model sampleModel))]
    unwritable := [] }

/-- A world holding a dict checkpoint lacking the key `model`. -/
def missingKeyWorld : World :=
  { fs := [("bad.pt", FileData.serialized (PyObj.dict [("weights", PyObj.model sampleModel)]))]
    unwritable := [] }

/-- C1: on a dict checkpoint `convert_to_onnx` selects the value stored
under the key `model` (all other entries, e.g. an `optimizer` entry, are
ignored: the whole run is identical to the run on the dict containing only
the `model` entry); on a non-dict object it uses the object itself. -/
theorem spec_C1 :
    (∀ (entries : List (String × PyObj)) (v : PyObj),
        lookupStr "model" entries = some v →
        unwrap (PyObj.dict entries) = Except.ok v) ∧
    (∀ o : PyObj, isDict o = false → unwrap o = Except.ok o) ∧
    (∀ (pt out : String) (n : Nat) (mv : PyObj) (rest : List (String × PyObj))
        (unw : List String),
        (convert_to_onnx pt out n
          { fs := [(pt, FileData.serialized (PyObj.dict (("model", mv) :: rest)))]
            unwritable := unw }).result =
        (convert_to_onnx pt out n
          { fs := [(pt, FileData.serialized (PyObj.dict [("model", mv)]))]
            unwritable := unw }).result ∧
        (convert_to_onnx pt out n
          { fs := [(pt, FileData.serialized (PyObj.dict (("model", mv) :: rest)))]
            unwritable := unw }).events =
        (convert_to_onnx pt out n
          { fs := [(pt, FileData.serialized (PyObj.dict [("model", mv)]))]
            unwritable := unw }).events) := by
  refine ⟨?_, ?_, ?_⟩
  · intro entries v h
    simp [unwrap, isDict, dictGetItem, h]
  · intro o h
    simp [unwrap, h]
  · intro pt out n mv rest unw
    cases hm : pyEval mv with
    | error e =>
        simp [convert_to_onnx, torch_load, lookupStr, unwrap, isDict, dictGetItem, hm]
    | ok m =>
        by_cases hu : out ∈ unw
        · simp [convert_to_onnx, torch_load, lookupStr, unwrap, isDict, dictGetItem,
            hm, torch_onnx_export, hu]
        · by_cases hr : m.exportRaises <;>
            simp [convert_to_onnx, torch_load, lookupStr, unwrap, isDict, dictGetItem,
              hm, torch_onnx_export, hu, hr]

/-- Closed instance of `spec_C1`: the scenario checkpoint
`{"model": m, "optimizer": s}` behaves exactly as `{"model": m}`. -/
theorem spec_C1_witness :
    unwrap (PyObj.dict [("model", PyObj.model sampleModel)])
      = Except.ok (PyObj.model sampleModel) ∧
    unwrap (PyObj.model sampleModel) = Except.ok (PyObj.model sampleModel) ∧
    (convert_to_onnx "ckpt.pt" "out.onnx" 640
        { fs := [("ckpt.pt", FileData.serialized (PyObj.dict
            [("model", PyObj.model sampleModel),
             ("optimizer", PyObj.dict [])]))]
          unwritable := [] }).result =
      (convert_to_onnx "ckpt.pt" "out.onnx" 640
        { fs := [("ckpt.pt", FileData.serialized (PyObj.dict
            [("model", PyObj.model sampleModel)]))]
          unwritable := [] }).result ∧
    (convert_to_onnx "ckpt.pt" "out.onnx" 640
        { fs := [("ckpt.pt", FileData.serialized (PyObj.dict
            [("model", PyObj.model sampleModel),
             ("optimizer", PyObj.dict [])]))]
          unwritable := [] }).events =
      (convert_to_onnx "ckpt.pt" "out.onnx" 640
        { fs := [("ckpt.pt", FileData.serialized (PyObj.dict
            [("model", PyObj.model sampleModel)]))]
          unwritable := [] }).events :=
  ⟨spec_C1.1 [("model", PyObj.model sampleModel)] (PyObj.model sampleModel) rfl,
   spec_C1.2.1 (PyObj.model sampleModel) rfl,
   spec_C1.2.2 "ckpt.pt" "out.onnx" 640 (PyObj.model sampleModel)
     [("optimizer", PyObj.dict [])] []⟩

/-- C2: every successful run makes exactly one export call, and that call
passes exactly opset version 12, the single input name `images`, the single
output name `output`, and dynamic-axes metadata marking axis 0 of both
`images` and `output` as dynamic. -/
theorem spec_C2 (pt out : String) (n : Nat) (w : World)
    (h : (convert_to_onnx pt out n w).result = Except.ok ()) :
    (∃ m : Model,
      (convert_to_onnx pt out n w).events.filter isExportEvent =
        [Event.exportEv out m (torch_randn [1, 3, n, n]) exportOpts]) ∧
    exportOpts.opset_version = 12 ∧
    exportOpts.input_names = ["images"] ∧
    exportOpts.output_names = ["output"] ∧
    exportOpts.dynamic_axes = [("images", [(0, "batch")]), ("output", [(0, "batch")])] := by
  refine ⟨?_, rfl, rfl, rfl, rfl⟩
  cases hl : torch_load pt w with
  | error e => simp [convert_to_onnx, hl] at h
  | ok loaded =>
    cases hu : unwrap loaded with
    | error e => simp [convert_to_onnx, hl, hu] at h
    | ok o =>
      cases he : pyEval o with
      | error e => simp [convert_to_onnx, hl, hu, he] at h
      | ok m =>
        cases hx : torch_onnx_export m (torch_randn [1, 3, n, n]) out exportOpts w with
        | error e => simp [convert_to_onnx, hl, hu, he, hx] at h
        | ok w₂ =>
          exact ⟨m, by simp [convert_to_onnx, hl, hu, he, hx, isExportEvent, List.filter]⟩

/-- Closed instance of `spec_C2` on a concrete successful run. -/
theorem spec_C2_witness :
    (∃ m : Model,
      (convert_to_onnx "model.pt" "model.onnx" 640 sampleWorld).events.filter isExportEvent =
        [Event.exportEv "model.onnx" m (torch_randn [1, 3, 640, 640]) exportOpts]) ∧
    exportOpts.opset_version = 12 ∧
    exportOpts.input_names = ["images"] ∧
    exportOpts.output_names = ["output"] ∧
    exportOpts.dynamic_axes = [("images", [(0, "batch")]), ("output", [(0, "batch")])] :=
  spec_C2 "model.pt" "model.onnx" 640 sampleWorld rfl

/-- C3: a checkpoint deserializing to a builtin dict lacking the key
`model` makes `convert_to_onnx` fail with `KeyError("model")` before the
export step runs: the world is unchanged (no output file is produced) and
the trace contains no export event. -/
theorem spec_C3 (pt out : String) (n : Nat) (entries : List (String × PyObj)) (w : World)
    (hckpt : lookupStr pt w.fs = some (FileData.serialized (PyObj.dict entries)))
    (hmiss : lookupStr "model" entries = none) :
    (convert_to_onnx pt out n w).result = Except.error (PyError.keyError "model") ∧
    (convert_to_onnx pt out n w).world = w ∧
    (convert_to_onnx pt out n w).events.filter isExportEvent = [] := by
  simp [convert_to_onnx, torch_load, hckpt, unwrap, isDict, dictGetItem, hmiss,
    isExportEvent, List.filter]

/-- Closed instance of `spec_C3` on a concrete dict checkpoint whose only
key is `weights`. -/
theorem spec_C3_witness :
    (convert_to_onnx "bad.pt" "out.onnx" 640 missingKeyWorld).result =
      Except.error (PyError.keyError "model") ∧
    (convert_to_onnx "bad.pt" "out.onnx" 640 missingKeyWorld).world = missingKeyWorld ∧
    (convert_to_onnx "bad.pt" "out.onnx" 640 missingKeyWorld).events.filter isExportEvent = [] :=
  spec_C3 "bad.pt" "out.onnx" 640 [("weights", PyObj.model sampleModel)]
    missingKeyWorld rfl rfl

/-- C4: any synthetic tracing input constructed during a run of
`convert_to_onnx` with edge size `n` is the `torch_randn` tensor of
4-dimensional shape `[1, 3, n, n]` drawn from a standard normal
distribution, so the spatial dimensions follow the edge size. -/
theorem spec_C4 (pt out : String) (n : Nat) (w : World) (t : Tensor)
    (h : Event.randnEv t ∈ (convert_to_onnx pt out n w).events) :
    t = torch_randn [1, 3, n, n] ∧ t.shape = [1, 3, n, n] ∧
    t.shape.length = 4 ∧ t.dist = Distribution.standardNormal := by
  have ht : t = torch_randn [1, 3, n, n] := by
    cases hl : torch_load pt w with
    | error e => simp [convert_to_onnx, hl] at h
    | ok loaded =>
      cases hu : unwrap loaded with
      | error e => simp [convert_to_onnx, hl, hu] at h
      | ok o =>
        cases he : pyEval o with
        | error e => simp [convert_to_onnx, hl, hu, he] at h
        | ok m =>
          cases hx : torch_onnx_export m (torch_randn [1, 3, n, n]) out exportOpts w with
          | error e =>
              simp [convert_to_onnx, hl, hu, he, hx] at h
              exact h
          | ok w₂ =>
              simp [convert_to_onnx, hl, hu, he, hx] at h
              exact h
  subst ht
  exact ⟨rfl, rfl, rfl, rfl⟩

/-- Closed instance of `spec_C4` on a concrete run at the default edge
size. -/
theorem spec_C4_witness :
    torch_randn [1, 3, 640, 640] = torch_randn [1, 3, 640, 640] ∧
    (torch_randn [1, 3, 640, 640]).shape = [1, 3, 640, 640] ∧
    (torch_randn [1, 3, 640, 640]).shape.length = 4 ∧
    (torch_randn [1, 3, 640, 640]).dist = Distribution.standardNormal :=
  spec_C4 "model.pt" "model.onnx" 640 sampleWorld (torch_randn [1, 3, 640, 640]) (by decide)

/-- C5: a command line with fewer than 2 positional arguments (fewer than 3
entries in `sys.argv`) prints the usage message to standard output, exits
with status 1, performs no file I/O (the world is unchanged and the only
event is the print), and never enters the conversion. -/
theorem spec_C5 (argv : List String) (w : World) (h : argv.length < 3) :
    (cli_main argv w).exit_code = 1 ∧
    (cli_main argv w).events = [Event.printEv usage_message] ∧
    (cli_main argv w).world = w ∧
    (cli_main argv w).convOutcome = none := by
  match argv with
  | [] => exact ⟨rfl, rfl, rfl, rfl⟩
  | [_a] => exact ⟨rfl, rfl, rfl, rfl⟩
  | [_a, _b] => exact ⟨rfl, rfl, rfl, rfl⟩
  | _a :: _b :: _c :: _rest => simp at h; omega

/-- Closed instance of `spec_C5`: invocation with zero positional
arguments. -/
theorem spec_C5_witness :
    (cli_main ["convert_model.py"] sampleWorld).exit_code = 1 ∧
    (cli_main ["convert_model.py"] sampleWorld).events = [Event.printEv usage_message] ∧
    (cli_main ["convert_model.py"] sampleWorld).world = sampleWorld ∧
    (cli_main ["convert_model.py"] sampleWorld).convOutcome = none :=
  spec_C5 ["convert_model.py"] sampleWorld (by decide)

/-- C6: a successful run prints exactly one message, namely
`Model converted successfully: ` followed by the output path, as the last
event after the export completes, and returns unit; a failing run prints
nothing. -/
theorem spec_C6 (pt out : String) (n : Nat) (w : World) :
    ((convert_to_onnx pt out n w).result = Except.ok () →
      (convert_to_onnx pt out n w).events.filter isPrintEvent =
        [Event.printEv ("Model converted successfully: " ++ out)] ∧
      ∃ m : Model,
        (convert_to_onnx pt out n w).events =
          [Event.loadEv pt "cpu", Event.randnEv (torch_randn [1, 3, n, n]),
           Event.exportEv out m (torch_randn [1, 3, n, n]) exportOpts,
           Event.printEv ("Model converted successfully: " ++ out)]) ∧
    (∀ e : PyError, (convert_to_onnx pt out n w).result = Except.error e →
      (convert_to_onnx pt out n w).events.filter isPrintEvent = []) := by
  cases hl : torch_load pt w with
  | error e =>
    constructor
    · intro h; simp [convert_to_onnx, hl] at h
    · intro e₂ _; simp [convert_to_onnx, hl, isPrintEvent, List.filter]
  | ok loaded =>
    cases hu : unwrap loaded with
    | error e =>
      constructor
      · intro h; simp [convert_to_onnx, hl, hu] at h
      · intro e₂ _; simp [convert_to_onnx, hl, hu, isPrintEvent, List.filter]
    | ok o =>
      cases he : pyEval o with
      | error e =>
        constructor
        · intro h; simp [convert_to_onnx, hl, hu, he] at h
        · intro e₂ _; simp [convert_to_onnx, hl, hu, he, isPrintEvent, List.filter]
      | ok m =>
        cases hx : torch_onnx_export m (torch_randn [1, 3, n, n]) out exportOpts w with
        | error e =>
          constructor
          · intro h; simp [convert_to_onnx, hl, hu, he, hx] at h
          · intro e₂ _; simp [convert_to_onnx, hl, hu, he, hx, isPrintEvent, List.filter]
        | ok w₂ =>
          constructor
          · intro _
            exact ⟨by simp [convert_to_onnx, hl, hu, he, hx, isPrintEvent, List.filter],
                   m, by simp [convert_to_onnx, hl, hu, he, hx]⟩
          · intro e₂ h₂; simp [convert_to_onnx, hl, hu, he, hx] at h₂

/-- Closed instance of `spec_C6` on a concrete successful run with output
path `model.onnx`. -/
theorem spec_C6_witness :
    (convert_to_onnx "model.pt" "model.onnx" 640 sampleWorld).events.filter isPrintEvent =
      [Event.printEv ("Model converted successfully: " ++ "model.onnx")] ∧
    ∃ m : Model,
      (convert_to_onnx "model.pt" "model.onnx" 640 sampleWorld).events =
        [Event.loadEv "model.pt" "cpu", Event.randnEv (torch_randn [1, 3, 640, 640]),
         Event.exportEv "model.onnx" m (torch_randn [1, 3, 640, 640]) exportOpts,
         Event.printEv ("Model converted successfully: " ++ "model.onnx")] :=
  (spec_C6 "model.pt" "model.onnx" 640 sampleWorld).1 rfl

/-- A world with an empty filesystem: every load fails. -/
def emptyWorld : World := { fs := [], unwritable := [] }

/-- C7: every exception arising in the load, unwrap, eval or export step
propagates unchanged as the outcome of `convert_to_onnx` (no exception is
caught), and any failing run leaves the world exactly as it was (no retry,
no cleanup of the output path). -/
theorem spec_C7 (pt out : String) (n : Nat) (w : World) (e : PyError) :
    (torch_load pt w = Except.error e →
      (convert_to_onnx pt out n w).result = Except.error e) ∧
    (∀ o : PyObj, torch_load pt w = Except.ok o → unwrap o = Except.error e →
      (convert_to_onnx pt out n w).result = Except.error e) ∧
    (∀ o o₂ : PyObj, torch_load pt w = Except.ok o → unwrap o = Except.ok o₂ →
      pyEval o₂ = Except.error e →
      (convert_to_onnx pt out n w).result = Except.error e) ∧
    (∀ (o o₂ : PyObj) (m : Model), torch_load pt w = Except.ok o →
      unwrap o = Except.ok o₂ → pyEval o₂ = Except.ok m →
      torch_onnx_export m (torch_randn [1, 3, n, n]) out exportOpts w = Except.error e →
      (convert_to_onnx pt out n w).result = Except.error e) ∧
    ((convert_to_onnx pt out n w).result = Except.error e →
      (convert_to_onnx pt out n w).world = w) := by
  refine ⟨?_, ?_, ?_, ?_, ?_⟩
  · intro hl; simp [convert_to_onnx, hl]
  · intro o hl hu; simp [convert_to_onnx, hl, hu]
  · intro o o₂ hl hu he; simp [convert_to_onnx, hl, hu, he]
  · intro o o₂ m hl hu he hx; simp [convert_to_onnx, hl, hu, he, hx]
  · intro hr
    cases hl : torch_load pt w with
    | error e₂ => simp [convert_to_onnx, hl]
    | ok loaded =>
      cases hu : unwrap loaded with
      | error e₂ => simp [convert_to_onnx, hl, hu]
      | ok o =>
        cases he : pyEval o with
        | error e₂ => simp [convert_to_onnx, hl, hu, he]
        | ok m =>
          cases hx : torch_onnx_export m (torch_randn [1, 3, n, n]) out exportOpts w with
          | error e₂ => simp [convert_to_onnx, hl, hu, he, hx]
          | ok w₂ => simp [convert_to_onnx, hl, hu, he, hx] at hr

/-- Closed instance of `spec_C7`: a missing checkpoint file propagates its
I/O error unchanged. -/
theorem spec_C7_witness :
    (convert_to_onnx "a.pt" "b.onnx" 640 emptyWorld).result =
      Except.error PyError.ioError :=
  (spec_C7 "a.pt" "b.onnx" 640 emptyWorld PyError.ioError).1 rfl

/-- True when an optional file content is an exported ONNX graph. -/
def isOnnxFile : Option FileData → Bool
  | some (FileData.onnx _ _ _) => true
  | _ => false

/-- C8 counterexample: when the output path equals the checkpoint path, a
successful run of `convert_to_onnx` overwrites the on-disk file at
`checkpoint_path` with the exported graph, so the claim that the checkpoint
file is never modified fails for that call. -/
theorem spec_C8_cex :
    isOnnxFile (lookupStr "model.pt" sampleWorld.fs) = false ∧
    isOnnxFile (lookupStr "model.pt"
      (convert_to_onnx "model.pt" "model.pt" 640 sampleWorld).world.fs) = true ∧
    (convert_to_onnx "model.pt" "model.pt" 640 sampleWorld).result = Except.ok () :=
  ⟨rfl, rfl, rfl⟩

/-- C8 (amended): every load in a run of `convert_to_onnx` deserializes the
checkpoint path onto the CPU device; whenever the output path differs from
the checkpoint path the on-disk file at the checkpoint path is unchanged by
the call; and switching to inference mode only flips the in-memory
`training` flag of the model object. -/
theorem spec_C8_amended (pt out : String) (n : Nat) (w : World) :
    (∀ p d : String, Event.loadEv p d ∈ (convert_to_onnx pt out n w).events →
      p = pt ∧ d = "cpu") ∧
    (out ≠ pt →
      lookupStr pt (convert_to_onnx pt out n w).world.fs = lookupStr pt w.fs) ∧
    (∀ m : Model, pyEval (PyObj.model m) = Except.ok { m with training := false }) := by
  refine ⟨?_, ?_, fun m => rfl⟩
  · intro p d hmem
    cases hl : torch_load pt w with
    | error e => simp [convert_to_onnx, hl] at hmem; exact hmem
    | ok loaded =>
      cases hu : unwrap loaded with
      | error e => simp [convert_to_onnx, hl, hu] at hmem; exact hmem
      | ok o =>
        cases he : pyEval o with
        | error e => simp [convert_to_onnx, hl, hu, he] at hmem; exact hmem
        | ok m =>
          cases hx : torch_onnx_export m (torch_randn [1, 3, n, n]) out exportOpts w with
          | error e => simp [convert_to_onnx, hl, hu, he, hx] at hmem; exact hmem
          | ok w₂ => simp [convert_to_onnx, hl, hu, he, hx] at hmem; exact hmem
  · intro hne
    cases hl : torch_load pt w with
    | error e => simp [convert_to_onnx, hl]
    | ok loaded =>
      cases hu : unwrap loaded with
      | error e => simp [convert_to_onnx, hl, hu]
      | ok o =>
        cases he : pyEval o with
        | error e => simp [convert_to_onnx, hl, hu, he]
        | ok m =>
          by_cases hw : out ∈ w.unwritable
          · simp [convert_to_onnx, hl, hu, he, torch_onnx_export, hw]
          · by_cases hr : m.exportRaises <;>
              simp [convert_to_onnx, hl, hu, he, torch_onnx_export, hw, hr, lookupStr, hne]

/-- Closed instance of `spec_C8_amended` on a concrete run with distinct
checkpoint and output paths. -/
theorem spec_C8_amended_witness :
    ("model.pt" = "model.pt" ∧ "cpu" = "cpu") ∧
    lookupStr "model.pt"
        (convert_to_onnx "model.pt" "model.onnx" 640 sampleWorld).world.fs =
      lookupStr "model.pt" sampleWorld.fs ∧
    pyEval (PyObj.model sampleModel) =
      Except.ok { sampleModel with training := false } :=
  ⟨(spec_C8_amended "model.pt" "model.onnx" 640 sampleWorld).1 "model.pt" "cpu" (by decide),
   (spec_C8_amended "model.pt" "model.onnx" 640 sampleWorld).2.1 (by decide),
   (spec_C8_amended "model.pt" "model.onnx" 640 sampleWorld).2.2 sampleModel⟩

/-- A world holding a custom-mapping checkpoint that even contains a
`model` key. -/
def mappingWorld : World :=
  { fs := [("map.pt", FileData.serialized (PyObj.mapping [("model", PyObj.model sampleModel)]))]
    unwritable := [] }

/-- C9: a deserialized object that is a key-value mapping but not an
instance of the builtin `dict` is not unwrapped: the `isinstance` test is
false, the unwrap step returns the whole object, and `convert_to_onnx`
treats the whole mapping as the model (so calling `eval` on it raises
`AttributeError`, even when the mapping holds a `model` key). -/
theorem spec_C9 (entries : List (String × PyObj)) :
    isDict (PyObj.mapping entries) = false ∧
    unwrap (PyObj.mapping entries) = Except.ok (PyObj.mapping entries) ∧
    (∀ (pt out : String) (n : Nat) (w : World),
      lookupStr pt w.fs = some (FileData.serialized (PyObj.mapping entries)) →
      (convert_to_onnx pt out n w).result = Except.error PyError.attributeError) := by
  refine ⟨rfl, rfl, ?_⟩
  intro pt out n w h
  simp [convert_to_onnx, torch_load, h, unwrap, isDict, pyEval]

/-- Closed instance of `spec_C9` on a concrete mapping checkpoint holding a
`model` key. -/
theorem spec_C9_witness :
    isDict (PyObj.mapping [("model", PyObj.model sampleModel)]) = false ∧
    unwrap (PyObj.mapping [("model", PyObj.model sampleModel)]) =
      Except.ok (PyObj.mapping [("model", PyObj.model sampleModel)]) ∧
    (convert_to_onnx "map.pt" "out.onnx" 640 mappingWorld).result =
      Except.error PyError.attributeError :=
  ⟨(spec_C9 [("model", PyObj.model sampleModel)]).1,
   (spec_C9 [("model", PyObj.model sampleModel)]).2.1,
   (spec_C9 [("model", PyObj.model sampleModel)]).2.2 "map.pt" "out.onnx" 640
     mappingWorld rfl⟩

/-- C10: a command line with more than 2 positional arguments is not
rejected: the run is identical to the run on the first two positional
arguments alone, the conversion is entered on those two paths, and the
edge size is the default 640. -/
theorem spec_C10 (prog a1 a2 : String) (rest : List String) (w : World) :
    cli_main (prog :: a1 :: a2 :: rest) w = cli_main [prog, a1, a2] w ∧
    (cli_main (prog :: a1 :: a2 :: rest) w).convOutcome =
      some (convert_to_onnx a1 a2 default_img_size w) ∧
    default_img_size = 640 :=
  ⟨rfl, rfl, rfl⟩

end ConvertModel
